import Mathlib

/-!
Verification of the order-processing repository against its specification.

The repository ships two implementations of the same system in one file:
the original `OrderProcessor` class (first part of `src/main.js`) and a
"refactored" version (second part, after the separator comment).  Both are
embedded here.  Conventions of the shallow embedding:

* JavaScript numbers are modelled as exact rationals (`ℚ`).
* The wall clock is injected: the current month (`new Date().getMonth()`,
  `0..11`, December = 11) and the timestamp strings produced by
  `new Date().toISOString()` are explicit parameters.
* Fields that JavaScript leaves `undefined` are modelled with `Option`.
  JavaScript truthiness is translated pointwise: an empty string is falsy,
  `0` is falsy, arrays (even empty ones) are truthy.
* The only runtime fault reachable after validation in the original code is
  `options.adjustments.reduce` when `adjustments` is a truthy non-array;
  `calculateComplexPricing` therefore returns `Except String`, and the
  orchestrator's `try/catch` is the `Except` handler in `stepOutcome`.
* The `createdAt` / `isValidDate` warning branch of
  `performComprehensiveValidation` only ever appends to `warnings`, never to
  `errors`, so validity is unaffected; warnings and the wall-clock date parse
  are elided from the embedding.  An absent `items` field is not
  representable (`items` is a Lean list); JavaScript arrays are always
  truthy, so the `Missing required field: items` error is unreachable for
  array-valued `items` anyway.
-/

namespace OrderSystem

/-- Line item of an order: `{ id, price, quantity }`. -/
structure Item where
  id : String
  price : ℚ
  quantity : ℚ
deriving DecidableEq

/-- Purchase history record `{ totalSpent }`. -/
structure PurchaseHistory where
  totalSpent : ℚ
deriving DecidableEq

/-- Customer record `{ id, email, purchaseHistory, isValid }`.  An absent
`email` is modelled as `""` (both are falsy and fail the email regex the
same way); `isValid` is the flag read by `shouldCompleteOrder`, absent =
`false`. -/
structure Customer where
  id : String
  email : String
  purchaseHistory : Option PurchaseHistory
  isValid : Bool
deriving DecidableEq

/-- Order record `{ id, items, customer }`. -/
structure Order where
  id : String
  items : List Item
  customer : Option Customer
deriving DecidableEq

/-- Character class `[^\s@]` of the email regex. -/
def isEmailAtomChar (c : Char) : Bool :=
  !c.isWhitespace && c != '@'

/-- True when the list contains a `'.'` that has at least one character
after it. -/
def dotWithTail : List Char → Bool
  | [] => false
  | [_] => false
  | c :: rest => c == '.' || dotWithTail rest

/-- Test of the regex `^[^\s@]+@[^\s@]+\.[^\s@]+$` (both implementations use
the same pattern): exactly one `@`, a nonempty local part, and a domain part
that contains a `.` with nonempty atoms on both sides. -/
def isValidEmail (email : String) : Bool :=
  let cs := email.data
  let localPart := cs.takeWhile (fun c => c != '@')
  match cs.dropWhile (fun c => c != '@') with
  | [] => false
  | _ :: domainPart =>
      !localPart.isEmpty && localPart.all isEmailAtomChar &&
      !domainPart.isEmpty && domainPart.all isEmailAtomChar &&
      (match domainPart with
       | [] => false
       | _ :: rest => dotWithTail rest)

/-- Result of `performComprehensiveValidation` (warnings elided, see the
module docstring). -/
structure ValidationResult where
  isValid : Bool
  errors : List String
deriving DecidableEq

/-- Errors contributed by one item in `performComprehensiveValidation`:
`!item.id`, `!item.price || item.price <= 0`, `!item.quantity ||
item.quantity <= 0` (over ℚ, `!x || x <= 0` is exactly `x ≤ 0`). -/
def itemErrors (index : ℕ) (item : Item) : List String :=
  (if item.id.isEmpty then ["Item " ++ toString index ++ " missing id"] else [])
  ++ (if item.price ≤ 0 then ["Item " ++ toString index ++ " has invalid price"] else [])
  ++ (if item.quantity ≤ 0 then ["Item " ++ toString index ++ " has invalid quantity"] else [])

/-- `performComprehensiveValidation(order, options)` of the original
implementation: accumulates every error (required fields, per-item checks
with the item index, customer checks) and is valid iff the error list is
empty.  `options` is unused by the source body apart from being received. -/
def performComprehensiveValidation (order : Order) : ValidationResult :=
  let fieldErrors :=
    (if order.id.isEmpty then ["Missing required field: id"] else [])
    ++ (if order.customer.isNone then ["Missing required field: customer"] else [])
  let itemsErrors :=
    if order.items.isEmpty then ["Order must contain at least one item"]
    else (order.items.enum.map fun p => itemErrors p.1 p.2).flatten
  let customerErrors :=
    match order.customer with
    | none => []
    | some c =>
      (if c.id.isEmpty then ["Customer missing id"] else [])
      ++ (if c.email.isEmpty || !isValidEmail c.email then ["Customer missing valid email"] else [])
  let errors := fieldErrors ++ itemsErrors ++ customerErrors
  ⟨errors.isEmpty, errors⟩

/-- `determineCustomerTier` (original): strict thresholds
(`totalSpent > 1000` → premium, `> 500` → gold), `standard` when the
customer or the history is absent; `totalSpent || 0` is the identity on a
present rational field. -/
def determineCustomerTier (customer : Option Customer) : String :=
  match customer with
  | none => "standard"
  | some c =>
    match c.purchaseHistory with
    | none => "standard"
    | some h =>
      if h.totalSpent > 1000 then "premium"
      else if h.totalSpent > 500 then "gold"
      else "standard"

/-- Value of the `adjustments` option: a JavaScript array of `{amount}`
records, or any truthy non-array value (on which `.reduce` throws). -/
inductive AdjustmentsVal where
  | arr (amounts : List ℚ)
  | nonArray
deriving DecidableEq

/-- Options record of the original implementation; absent fields are `none`
(falsy). -/
structure Options where
  taxRate : Option ℚ := none
  applyFees : Option Bool := none
  adjustments : Option AdjustmentsVal := none
  promotionalCode : Option String := none
  strictMode : Bool := false
  requireMinimumValue : Bool := false
  skipInvalidCustomers : Bool := false
  includeDetails : Bool := false
  includeStatistics : Bool := false
  includeMetadata : Bool := false
deriving DecidableEq

/-- `transformed.metadata` of `transformAndEnrichOrder`. -/
structure OrderMetadata where
  itemCount : ℕ
  hasMultipleItems : Bool
  isLargeOrder : Bool
  customerTier : String
deriving DecidableEq

/-- Order after `transformAndEnrichOrder`: the spread `...order` is the
`base` field, plus `processedAt`, `processingOptions` and the computed
fields. -/
structure EnrichedOrder where
  base : Order
  processedAt : String
  processingOptions : Options
  totalItems : ℚ
  subtotal : ℚ
  metadata : OrderMetadata
deriving DecidableEq

/-- `transformAndEnrichOrder(order, options)`; `now` is the injected
`new Date().toISOString()`. -/
def transformAndEnrichOrder (order : Order) (options : Options) (now : String) : EnrichedOrder :=
  let totalItems := (order.items.map (fun item => item.quantity)).sum
  { base := order
    processedAt := now
    processingOptions := options
    totalItems := totalItems
    subtotal := (order.items.map (fun item => item.price * item.quantity)).sum
    metadata :=
      { itemCount := order.items.length
        hasMultipleItems := decide (order.items.length > 1)
        isLargeOrder := decide (totalItems > 10)
        customerTier := determineCustomerTier order.customer } }

/-- `breakdown` record of `calculateComplexPricing`. -/
structure Breakdown where
  subtotal : ℚ
  taxes : ℚ
  fees : ℚ
  adjustments : ℚ
deriving DecidableEq

/-- Return value of `calculateComplexPricing`. -/
structure PricingResult where
  finalPrice : ℚ
  breakdown : Breakdown
deriving DecidableEq

/-- JavaScript `x || d` on an optional numeric option (`0` is falsy). -/
def jsOrRate (x : Option ℚ) (d : ℚ) : ℚ :=
  match x with
  | some v => if v = 0 then d else v
  | none => d

/-- `calculateComplexPricing(order, options)` of the original implementation.
Taxes from `options.taxRate || 0.1`, a flat fee of 5.00 / 2.50 chosen by
`order.metadata.isLargeOrder` unless `options.applyFees === false`, then the
`adjustments` sum.  `.reduce` on a truthy non-array `adjustments` throws,
modelled by the `Except.error` branch — this is the computation fault the
orchestrator catches. -/
def calculateComplexPricing (order : EnrichedOrder) (options : Options) :
    Except String PricingResult :=
  let taxes := order.subtotal * jsOrRate options.taxRate (1/10)
  let afterTax := order.subtotal + taxes
  let fees : ℚ :=
    if options.applyFees ≠ some false then
      (if order.metadata.isLargeOrder then 5 else 5/2)
    else 0
  let afterFees := afterTax + fees
  match options.adjustments with
  | none => .ok ⟨afterFees, ⟨order.subtotal, taxes, fees, 0⟩⟩
  | some (.arr amounts) =>
      let adj := amounts.sum
      .ok ⟨afterFees + adj, ⟨order.subtotal, taxes, fees, adj⟩⟩
  | some .nonArray => .error "options.adjustments.reduce is not a function"

/-- Order carrying the pricing results that `processOrders` assigns onto the
enriched order (`finalPrice`, `pricingBreakdown`) before the discount pass. -/
structure PricedOrder extends EnrichedOrder where
  finalPrice : ℚ
  pricingBreakdown : Breakdown
deriving DecidableEq

/-- Entry of the `appliedDiscounts` list. -/
structure DiscountEntry where
  type : String
  amount : ℚ
  percentage : Option ℚ := none
  code : Option String := none
deriving DecidableEq

/-- `calculatePromotionalDiscount(price, code)`: table lookup
`SAVE10 → 0.1`, `SAVE20 → 0.2`, `SAVE50 → 0.5`; a missing (falsy) rate gives
0. -/
def calculatePromotionalDiscount (price : ℚ) (code : String) : ℚ :=
  let rate : ℚ :=
    if code = "SAVE10" then 1/10
    else if code = "SAVE20" then 1/5
    else if code = "SAVE50" then 1/2
    else 0
  if rate ≠ 0 then price * rate else 0

/-- Customer-tier block of `applyMultiLevelDiscounts`: 10% off the running
total when the enriched metadata says `premium`.  The state is the pair
(running discounted price, applied discount entries). -/
def tierStep (order : PricedOrder) (s : ℚ × List DiscountEntry) : ℚ × List DiscountEntry :=
  if order.metadata.customerTier = "premium" then
    let discount := s.1 * (1/10)
    (s.1 - discount, s.2 ++ [⟨"tier", discount, some 10, none⟩])
  else s

/-- Volume block of `applyMultiLevelDiscounts`: 5% off the running total when
`order.metadata.isLargeOrder`. -/
def volumeStep (order : PricedOrder) (s : ℚ × List DiscountEntry) : ℚ × List DiscountEntry :=
  if order.metadata.isLargeOrder then
    let discount := s.1 * (1/20)
    (s.1 - discount, s.2 ++ [⟨"volume", discount, some 5, none⟩])
  else s

/-- Promotional block of `applyMultiLevelDiscounts`: when a promo code is
supplied, the looked-up percentage of the running total; recorded and
subtracted only when positive. -/
def promoStep (options : Options) (s : ℚ × List DiscountEntry) : ℚ × List DiscountEntry :=
  match options.promotionalCode with
  | some code =>
    let promoDiscount := calculatePromotionalDiscount s.1 code
    if promoDiscount > 0 then
      (s.1 - promoDiscount, s.2 ++ [⟨"promotional", promoDiscount, none, some code⟩])
    else s
  | none => s

/-- Seasonal block of `applyMultiLevelDiscounts`: 15% off the running total
in December (`getMonth() === 11`), with the month injected. -/
def seasonalStep (month : ℕ) (s : ℚ × List DiscountEntry) : ℚ × List DiscountEntry :=
  if month = 11 then
    let discount := s.1 * (3/20)
    (s.1 - discount, s.2 ++ [⟨"seasonal", discount, some 15, none⟩])
  else s

/-- Return value of `applyMultiLevelDiscounts`. -/
structure DiscountResult where
  discountedPrice : ℚ
  discounts : List DiscountEntry
deriving DecidableEq

/-- `applyMultiLevelDiscounts(order, options)` of the original
implementation: the four blocks run in source order — tier, volume,
promotional, seasonal — each on the running total left by the previous
block, and the result is clamped with `Math.max(0, ...)`. -/
def applyMultiLevelDiscounts (order : PricedOrder) (options : Options) (month : ℕ) :
    DiscountResult :=
  let s := seasonalStep month (promoStep options (volumeStep order (tierStep order (order.finalPrice, []))))
  ⟨max 0 s.1, s.2⟩

/-- Variant of `applyMultiLevelDiscounts` with the first two blocks
exchanged (volume before tier); needed to state the spec's
order-sensitivity property. -/
def applyMultiLevelDiscountsSwapped (order : PricedOrder) (options : Options) (month : ℕ) :
    DiscountResult :=
  let s := seasonalStep month (promoStep options (tierStep order (volumeStep order (order.finalPrice, []))))
  ⟨max 0 s.1, s.2⟩

/-- Fully processed order: the priced order plus `discountedPrice` and
`appliedDiscounts` as assigned in `processOrders`. -/
structure ProcessedOrder extends PricedOrder where
  discountedPrice : ℚ
  appliedDiscounts : List DiscountEntry
deriving DecidableEq

/-- `shouldCompleteOrder(order, options)`: the acceptance gate.  The
`order.customer.isValid` read is only reachable for validated orders, whose
customer is present; an absent customer reads as falsy. -/
def shouldCompleteOrder (order : ProcessedOrder) (options : Options) : Bool :=
  if options.strictMode && decide (order.discountedPrice ≤ 0) then false
  else if options.requireMinimumValue && decide (order.discountedPrice < 10) then false
  else if options.skipInvalidCustomers && !(match order.base.customer with
                                            | some c => c.isValid
                                            | none => false) then false
  else true

/-- Outcome of one iteration of the `processOrders` map body: the order is
accepted (pushed to `processedOrders` and returned), or rejected with the
reason recorded by the corresponding handler. -/
inductive StepOutcome where
  | accepted (processed : ProcessedOrder)
  | rejectedValidation (errors : List String)
  | rejectedCompletion
  | rejectedError (msg : String)
deriving DecidableEq

/-- Body of the `try` block in the `processOrders` map: validation gate,
enrichment, pricing (the one step that can throw), discounts, acceptance
gate.  The `Except` layer is the uncaught-fault channel. -/
def tryStep (order : Order) (options : Options) (month : ℕ) (now : String) :
    Except String StepOutcome :=
  let validationResult := performComprehensiveValidation order
  if validationResult.isValid then
    let enriched := transformAndEnrichOrder order options now
    match calculateComplexPricing enriched options with
    | .error msg => .error msg
    | .ok pricing =>
      let priced : PricedOrder :=
        { toEnrichedOrder := enriched
          finalPrice := pricing.finalPrice
          pricingBreakdown := pricing.breakdown }
      let discountResult := applyMultiLevelDiscounts priced options month
      let processed : ProcessedOrder :=
        { toPricedOrder := priced
          discountedPrice := discountResult.discountedPrice
          appliedDiscounts := discountResult.discounts }
      if shouldCompleteOrder processed options then .ok (.accepted processed)
      else .ok .rejectedCompletion
  else .ok (.rejectedValidation validationResult.errors)

/-- One iteration of the `processOrders` map with its `catch`: a fault from
the body becomes the `rejectedError` outcome carrying the fault message. -/
def stepOutcome (order : Order) (options : Options) (month : ℕ) (now : String) :
    StepOutcome :=
  match tryStep order options month now with
  | .ok r => r
  | .error msg => .rejectedError msg

/-- Value the map body returns for the `results` array: the processed order
on success, `null` otherwise. -/
def stepValue : StepOutcome → Option ProcessedOrder
  | .accepted processed => some processed
  | _ => none

/-- Whether the outcome is the accepted one. -/
def isAcceptedOutcome : StepOutcome → Bool
  | .accepted _ => true
  | _ => false

/-- Applied-discounts list of an accepted outcome. -/
def acceptedDiscounts : StepOutcome → Option (List DiscountEntry)
  | .accepted processed => some processed.appliedDiscounts
  | _ => none

/-- Discounted price of an accepted outcome. -/
def acceptedFinal : StepOutcome → Option ℚ
  | .accepted processed => some processed.discountedPrice
  | _ => none

/-- Outcome with the wall-clock `processedAt` stamp blanked, for stating
determinism of everything except the timestamp. -/
def eraseTime : StepOutcome → StepOutcome
  | .accepted processed => .accepted { processed with processedAt := "" }
  | r => r

/-- Entry of `state.failedOrders`, as built by `handleValidationFailure`,
`handleCompletionFailure` and `handleError`. -/
structure Failure where
  order : Order
  index : ℕ
  reason : String
  errors : Option (List String)
  error : Option String
  timestamp : String
deriving DecidableEq

/-- `state.metadata.statistics`. -/
structure Statistics where
  successCount : ℕ
  failureCount : ℕ
  totalValue : ℚ
  averageOrderValue : ℚ
deriving DecidableEq

/-- Mutable state of an `OrderProcessor` instance (processing timestamps
elided; they are wall-clock bookkeeping that no claim touches). -/
structure ProcessorState where
  orders : List Order
  processedOrders : List ProcessedOrder
  failedOrders : List Failure
  statistics : Statistics
deriving DecidableEq

/-- State of a freshly constructed `OrderProcessor`. -/
def initialState : ProcessorState :=
  ⟨[], [], [], ⟨0, 0, 0, 0⟩⟩

/-- `updateStatistics(order, status)`: on success bump `successCount` and add
the discounted price to `totalValue`, otherwise bump `failureCount`; then
recompute `averageOrderValue = totalValue / max(1, successCount)`. -/
def updateStatistics (stats : Statistics) (successPrice : Option ℚ) : Statistics :=
  let stats1 :=
    match successPrice with
    | some price =>
      { stats with successCount := stats.successCount + 1
                   totalValue := stats.totalValue + price }
    | none => { stats with failureCount := stats.failureCount + 1 }
  { stats1 with averageOrderValue := stats1.totalValue / (max 1 stats1.successCount : ℕ) }

/-- State effect of one `processOrders` iteration: push to
`processedOrders` or record the failure produced by the matching handler
(`handleValidationFailure` / `handleCompletionFailure` / `handleError`), and
update the statistics. -/
def applyOutcome (st : ProcessorState) (order : Order) (index : ℕ) (now : String) :
    StepOutcome → ProcessorState
  | .accepted processed =>
      { st with processedOrders := st.processedOrders ++ [processed]
                statistics := updateStatistics st.statistics (some processed.discountedPrice) }
  | .rejectedValidation errs =>
      { st with failedOrders := st.failedOrders ++ [⟨order, index, "validation_failed", some errs, none, now⟩]
                statistics := updateStatistics st.statistics none }
  | .rejectedCompletion =>
      { st with failedOrders := st.failedOrders ++ [⟨order, index, "completion_failed", none, none, now⟩]
                statistics := updateStatistics st.statistics none }
  | .rejectedError msg =>
      { st with failedOrders := st.failedOrders ++ [⟨order, index, "error", none, some msg, now⟩]
                statistics := updateStatistics st.statistics none }

/-- The indexed map of `processOrders` over the orders, threading the
processor state and collecting the `results` array. -/
def runOrders (options : Options) (month : ℕ) (now : String) :
    ProcessorState → List (ℕ × Order) → ProcessorState × List (Option ProcessedOrder)
  | st, [] => (st, [])
  | st, (index, order) :: rest =>
    let r := stepOutcome order options month now
    let st1 := applyOutcome st order index now r
    let res := runOrders options month now st1 rest
    (res.1, stepValue r :: res.2)

/-- Response record of `buildResponse` (the `metadata` field, which is the
elided timestamp bookkeeping plus the statistics, is represented by the
statistics it contains). -/
structure Response where
  success : Bool
  processed : ℕ
  failed : ℕ
  total : ℕ
  orders : Option (List ProcessedOrder)
  statistics : Option Statistics
deriving DecidableEq

/-- `buildResponse(results, options)`: counts read from the instance state,
detail and statistics included on request. -/
def buildResponse (st : ProcessorState) (results : List (Option ProcessedOrder))
    (options : Options) : Response :=
  { success := true
    processed := st.processedOrders.length
    failed := st.failedOrders.length
    total := st.orders.length
    orders := if options.includeDetails then some (results.filterMap id) else none
    statistics := if options.includeStatistics then some st.statistics else none }

/-- `processOrders(orders, options)` on an instance with state `st`: store
the orders on the instance, run the per-order map, build the response from
the (accumulated) instance state.  Returns the new instance state with the
response. -/
def processOrders (st : ProcessorState) (orders : List Order) (options : Options)
    (month : ℕ) (now : String) : ProcessorState × Response :=
  let st0 := { st with orders := orders }
  let res := runOrders options month now st0 orders.enum
  (res.1, buildResponse res.1 res.2 options)

namespace Refactored

/-- Result of the refactored `validateOrder`: first failing rule only. -/
structure SimpleValidation where
  valid : Bool
  error : Option String
deriving DecidableEq

/-- `validateOrder(order)` of the refactored implementation: returns at the
first failing rule; the per-item loop returns one generic `Invalid item
data` error without an index. -/
def validateOrder (order : Order) : SimpleValidation :=
  if order.id.isEmpty then ⟨false, some "Order must have an id"⟩
  else if order.items.isEmpty then ⟨false, some "Order must have at least one item"⟩
  else if order.items.any (fun item => item.id.isEmpty || item.price ≤ 0 || item.quantity ≤ 0) then
    ⟨false, some "Invalid item data"⟩
  else
    match order.customer with
    | none => ⟨false, some "Invalid customer data"⟩
    | some c =>
      if c.id.isEmpty || !isValidEmail c.email then ⟨false, some "Invalid customer data"⟩
      else ⟨true, none⟩

/-- `calculateSubtotal(items)`. -/
def calculateSubtotal (items : List Item) : ℚ :=
  (items.map (fun item => item.price * item.quantity)).sum

/-- `calculateTax(subtotal)` with the constant `TAX_RATE = 0.1`. -/
def calculateTax (subtotal : ℚ) : ℚ :=
  subtotal * (1/10)

/-- `calculateFee(itemCount)` with `LARGE_ORDER_THRESHOLD = 10`. -/
def calculateFee (itemCount : ℚ) : ℚ :=
  if itemCount > 10 then 5 else 5/2

/-- `calculateTotal(subtotal, tax, fee)`. -/
def calculateTotal (subtotal tax fee : ℚ) : ℚ :=
  subtotal + tax + fee

/-- `getCustomerTier(customer)` of the refactored implementation: inclusive
thresholds from `CUSTOMER_TIERS` (premium ≥ 1000, gold ≥ 500), optional
chaining with `|| 0` for the default spend. -/
def getCustomerTier (customer : Option Customer) : String :=
  let totalSpent := ((customer.bind (fun c => c.purchaseHistory)).map
    (fun h => h.totalSpent)).getD 0
  if totalSpent ≥ 1000 then "premium"
  else if totalSpent ≥ 500 then "gold"
  else "standard"

/-- `applyTierDiscount(price, tier)`: `CUSTOMER_TIERS` lookup (only the
premium tier has a nonzero rate; an unknown tier reads as `|| 0`). -/
def applyTierDiscount (price : ℚ) (tier : String) : ℚ :=
  let discountRate : ℚ := if tier = "premium" then 1/10 else 0
  price * discountRate

/-- `applyVolumeDiscount(price, itemCount)`: 5% when the given count exceeds
the threshold — the refactored caller passes `order.items.length`. -/
def applyVolumeDiscount (price : ℚ) (itemCount : ℚ) : ℚ :=
  if itemCount > 10 then price * (1/20) else 0

/-- `applyPromoDiscount(price, promoCode)` from the `PROMO_CODES` table. -/
def applyPromoDiscount (price : ℚ) (promoCode : String) : ℚ :=
  let discountRate : ℚ :=
    if promoCode = "SAVE10" then 1/10
    else if promoCode = "SAVE20" then 1/5
    else if promoCode = "SAVE50" then 1/2
    else 0
  price * discountRate

/-- `applySeasonalDiscount(price)`: 15% in December, month injected. -/
def applySeasonalDiscount (price : ℚ) (month : ℕ) : ℚ :=
  if month = 11 then price * (3/20) else 0

/-- `discounts` record of the refactored pricing result. -/
structure Discounts where
  tier : ℚ
  volume : ℚ
  promotional : ℚ
  seasonal : ℚ
deriving DecidableEq

/-- Return value of the refactored `calculateFinalPrice`. -/
structure Pricing where
  subtotal : ℚ
  tax : ℚ
  fee : ℚ
  total : ℚ
  discounts : Discounts
  finalPrice : ℚ
deriving DecidableEq

/-- First item price, used by the refactored fee call
`calculateFee(calculateSubtotal(order.items) / order.items[0].price)`; on an
empty list the JavaScript quotient is `NaN`, which fails the `> 10` test
just as the Lean convention `x / 0 = 0` does. -/
def firstItemPrice (items : List Item) : ℚ :=
  match items with
  | [] => 0
  | item :: _ => item.price

/-- `calculateFinalPrice(order, promoCode)` of the refactored
implementation: fee from the reconstructed ratio `subtotal / items[0].price`
("approximate item count"), volume discount from `order.items.length`, and
all four discounts computed on the same pre-discount `total`, summed, then
subtracted once with a `Math.max(0, ...)` clamp. -/
def calculateFinalPrice (order : Order) (promoCode : Option String) (month : ℕ) :
    Pricing :=
  let subtotal := calculateSubtotal order.items
  let tax := calculateTax subtotal
  let fee := calculateFee (calculateSubtotal order.items / firstItemPrice order.items)
  let total := calculateTotal subtotal tax fee
  let tier := getCustomerTier order.customer
  let tierDiscount := applyTierDiscount total tier
  let volumeDiscount := applyVolumeDiscount total (order.items.length : ℚ)
  let promoDiscount :=
    match promoCode with
    | some code => applyPromoDiscount total code
    | none => 0
  let seasonalDiscount := applySeasonalDiscount total month
  let totalDiscount := tierDiscount + volumeDiscount + promoDiscount + seasonalDiscount
  { subtotal := subtotal
    tax := tax
    fee := fee
    total := total
    discounts :=
      { tier := tierDiscount
        volume := volumeDiscount
        promotional := promoDiscount
        seasonal := seasonalDiscount }
    finalPrice := max 0 (total - totalDiscount) }

end Refactored

/-- Worked example order of the spec (Example 1) and of both usage examples
in the source. -/
def exOrder : Order :=
  { id := "123"
    items := [⟨"item1", 10, 2⟩]
    customer := some
      { id := "cust1"
        email := "test@example.com"
        purchaseHistory := some ⟨1200⟩
        isValid := false } }

/-- Options of the spec's Example 1: `{taxRate: 0.1}` with promo code
`SAVE10`. -/
def exOptions : Options :=
  { taxRate := some (1/10), promotionalCode := some "SAVE10" }

/-- Empty options object (all fields absent). -/
def opts0 : Options := {}

/-- Options whose `adjustments` is a truthy non-array value: pricing throws
on `.reduce`. -/
def faultOpts : Options :=
  { adjustments := some .nonArray }

/-- Valid two-item order whose total quantity (12) exceeds the large-order
threshold while the refactored ratio `subtotal / items[0].price = 30 / 4`
and the line-item count (2) do not. -/
def order3 : Order :=
  { id := "ord3"
    items := [⟨"a", 4, 6⟩, ⟨"b", 1, 6⟩]
    customer := some
      { id := "c"
        email := "a@b.co"
        purchaseHistory := none
        isValid := false } }

/-- Order with two independently invalid items (item 0 has a non-positive
price, item 1 a non-positive quantity) and a valid customer. -/
def order4 : Order :=
  { id := "ord4"
    items := [⟨"a", -1, 1⟩, ⟨"b", 1, 0⟩]
    customer := some
      { id := "c"
        email := "a@b.co"
        purchaseHistory := none
        isValid := false } }

/-- Concrete priced order whose metadata makes both the tier and the volume
discount fire, with a positive price entering the discount stack. -/
def premiumLargePriced : PricedOrder :=
  { base := order3
    processedAt := "t"
    processingOptions := opts0
    totalItems := 12
    subtotal := 30
    metadata := ⟨2, true, true, "premium"⟩
    finalPrice := 100
    pricingBreakdown := ⟨30, 3, 5, 0⟩ }

/-! ### Helper lemmas about the discount steps -/

/-- Price component of the tier block, in closed form. -/
lemma tierStep_fst (order : PricedOrder) (s : ℚ × List DiscountEntry) :
    (tierStep order s).1
      = if order.metadata.customerTier = "premium" then s.1 - s.1 * (1/10) else s.1 := by
  simp only [tierStep]
  split_ifs <;> rfl

/-- Price component of the volume block, in closed form. -/
lemma volumeStep_fst (order : PricedOrder) (s : ℚ × List DiscountEntry) :
    (volumeStep order s).1
      = if order.metadata.isLargeOrder then s.1 - s.1 * (1/20) else s.1 := by
  simp only [volumeStep]
  split_ifs <;> rfl

/-- The promotional block's price component depends only on the incoming
price, not on the accumulated entry list. -/
lemma promoStep_fst (options : Options) (s t : ℚ × List DiscountEntry) (h : s.1 = t.1) :
    (promoStep options s).1 = (promoStep options t).1 := by
  simp only [promoStep]
  cases options.promotionalCode with
  | none => exact h
  | some code =>
    simp only [h]
    split_ifs <;> simp [h]

/-- The seasonal block's price component depends only on the incoming
price. -/
lemma seasonalStep_fst (month : ℕ) (s t : ℚ × List DiscountEntry) (h : s.1 = t.1) :
    (seasonalStep month s).1 = (seasonalStep month t).1 := by
  simp only [seasonalStep]
  split_ifs <;> simp [h]

/-- The promotional and seasonal blocks only append to the entry list. -/
lemma steps_snd_append (options : Options) (month : ℕ) (s : ℚ × List DiscountEntry) :
    ∃ extra, (seasonalStep month (promoStep options s)).2 = s.2 ++ extra := by
  cases hp : options.promotionalCode with
  | none =>
    simp only [promoStep, seasonalStep, hp]
    split_ifs
    · exact ⟨_, rfl⟩
    · exact ⟨[], by simp⟩
  | some code =>
    simp only [promoStep, seasonalStep, hp]
    split_ifs
    · exact ⟨_, List.append_assoc _ _ _⟩
    · exact ⟨_, rfl⟩
    · exact ⟨_, rfl⟩
    · exact ⟨[], by simp⟩

/-! ### Helper lemmas about the batch orchestrator -/

/-- No handler touches the `orders` field. -/
lemma applyOutcome_orders (st : ProcessorState) (order : Order) (index : ℕ) (now : String)
    (r : StepOutcome) : (applyOutcome st order index now r).orders = st.orders := by
  cases r <;> rfl

/-- Every outcome is recorded in exactly one of the two lists. -/
lemma applyOutcome_outcome_count (st : ProcessorState) (order : Order) (index : ℕ)
    (now : String) (r : StepOutcome) :
    (applyOutcome st order index now r).processedOrders.length
      + (applyOutcome st order index now r).failedOrders.length
    = st.processedOrders.length + st.failedOrders.length + 1 := by
  cases r <;> simp [applyOutcome] <;> omega

/-- The per-order map leaves the stored order list unchanged. -/
lemma runOrders_orders (options : Options) (month : ℕ) (now : String)
    (l : List (ℕ × Order)) (st : ProcessorState) :
    (runOrders options month now st l).1.orders = st.orders := by
  induction l generalizing st with
  | nil => rfl
  | cons p rest ih =>
    cases p with
    | mk index order =>
      simp only [runOrders]
      rw [ih, applyOutcome_orders]

/-- Each processed order lands in exactly one of `processedOrders` /
`failedOrders`. -/
lemma runOrders_outcome_count (options : Options) (month : ℕ) (now : String)
    (l : List (ℕ × Order)) (st : ProcessorState) :
    (runOrders options month now st l).1.processedOrders.length
      + (runOrders options month now st l).1.failedOrders.length
    = st.processedOrders.length + st.failedOrders.length + l.length := by
  induction l generalizing st with
  | nil => simp [runOrders]
  | cons p rest ih =>
    cases p with
    | mk index order =>
      simp only [runOrders, List.length_cons]
      rw [ih, applyOutcome_outcome_count]
      omega

/-- The `results` array is the pointwise image of the pure per-order outcome
function: no entry depends on the processor state or on other orders. -/
lemma runOrders_results (options : Options) (month : ℕ) (now : String)
    (l : List (ℕ × Order)) (st : ProcessorState) :
    (runOrders options month now st l).2
      = l.map (fun p => stepValue (stepOutcome p.2 options month now)) := by
  induction l generalizing st with
  | nil => rfl
  | cons p rest ih =>
    cases p with
    | mk index order =>
      simp only [runOrders, List.map_cons]
      rw [ih]

/-- Length of `processedOrders` after a batch: prior length plus the number
of accepted orders of this batch. -/
lemma runOrders_processed_len (options : Options) (month : ℕ) (now : String)
    (l : List (ℕ × Order)) (st : ProcessorState) :
    (runOrders options month now st l).1.processedOrders.length
      = st.processedOrders.length
        + (l.filter (fun p => isAcceptedOutcome (stepOutcome p.2 options month now))).length := by
  induction l generalizing st with
  | nil => simp [runOrders]
  | cons p rest ih =>
    cases p with
    | mk index order =>
      simp only [runOrders]
      rw [ih]
      cases hr : stepOutcome order options month now <;>
        simp [applyOutcome, List.filter, hr, isAcceptedOutcome]
      omega

/-- Length of `failedOrders` after a batch: prior length plus the number of
rejected orders of this batch. -/
lemma runOrders_failed_len (options : Options) (month : ℕ) (now : String)
    (l : List (ℕ × Order)) (st : ProcessorState) :
    (runOrders options month now st l).1.failedOrders.length
      = st.failedOrders.length
        + (l.filter (fun p => !isAcceptedOutcome (stepOutcome p.2 options month now))).length := by
  induction l generalizing st with
  | nil => simp [runOrders]
  | cons p rest ih =>
    cases p with
    | mk index order =>
      simp only [runOrders]
      rw [ih]
      cases hr : stepOutcome order options month now <;>
        simp [applyOutcome, List.filter, hr, isAcceptedOutcome] <;> omega

/-- Filtering an enumerated list on a predicate of the elements gives the
same count as filtering the plain list. -/
lemma enumFrom_filter_snd_length (P : Order → Bool) (n : ℕ) (l : List Order) :
    ((List.enumFrom n l).filter (fun p => P p.2)).length = (l.filter P).length := by
  induction l generalizing n with
  | nil => rfl
  | cons o rest ih =>
    simp only [List.enumFrom, List.filter]
    cases P o <;> simp [ih]

/-- Enumerating does not change the length. -/
lemma enumFrom_length (n : ℕ) (l : List Order) :
    (List.enumFrom n l).length = l.length := by
  induction l generalizing n with
  | nil => rfl
  | cons o rest ih => simp [List.enumFrom, ih]

/-! ### Claim theorems -/

/-- Claim C1: on the Example-1 order (one item at price 10, quantity 2,
premium customer with 1200 spent) with `taxRate = 0.1` and promo `SAVE10`,
in any non-December month, the pipeline computes subtotal 20, tax 2, fee
2.50, pre-discount total 24.5, a 10% tier discount of 2.45 (leaving 22.05),
no volume discount (quantity 2 is not above 10), a promotional discount of
2.205 = 10% of 22.05 (leaving 19.845), no seasonal discount, and accepts the
order. -/
theorem c1_example1_pipeline (month : ℕ) (hm : month ≠ 11) (now : String) :
    stepOutcome exOrder exOptions month now = .accepted
      { base := exOrder
        processedAt := now
        processingOptions := exOptions
        totalItems := 2
        subtotal := 20
        metadata := ⟨1, false, false, "premium"⟩
        finalPrice := 49/2
        pricingBreakdown := ⟨20, 2, 5/2, 0⟩
        discountedPrice := 3969/200
        appliedDiscounts := [⟨"tier", 49/20, some 10, none⟩,
                             ⟨"promotional", 441/200, none, some "SAVE10"⟩] } := by
  have h1 : performComprehensiveValidation exOrder = ⟨true, []⟩ := by decide
  unfold stepOutcome tryStep
  rw [h1]
  norm_num +decide [transformAndEnrichOrder, determineCustomerTier, calculateComplexPricing,
    jsOrRate, applyMultiLevelDiscounts, tierStep, volumeStep, promoStep, seasonalStep,
    calculatePromotionalDiscount, shouldCompleteOrder, exOrder, exOptions, hm]

/-- Witness for C1 at the concrete month 5 and timestamp `"t"`. -/
theorem c1_example1_pipeline_witness :
    (5 : ℕ) ≠ 11 ∧
    stepOutcome exOrder exOptions 5 "t" = .accepted
      { base := exOrder
        processedAt := "t"
        processingOptions := exOptions
        totalItems := 2
        subtotal := 20
        metadata := ⟨1, false, false, "premium"⟩
        finalPrice := 49/2
        pricingBreakdown := ⟨20, 2, 5/2, 0⟩
        discountedPrice := 3969/200
        appliedDiscounts := [⟨"tier", 49/20, some 10, none⟩,
                             ⟨"promotional", 441/200, none, some "SAVE10"⟩] } :=
  ⟨by decide, c1_example1_pipeline 5 (by decide) "t"⟩

/-- Claim C2 (code bug): the original `applyMultiLevelDiscounts` does apply
the discounts sequentially on the running total (promotional discount
441/200 = 2.205 = 10% of 22.05 on the Example-1 order, final price 19.845),
but the refactored `calculateFinalPrice` computes every discount on the
original pre-discount total 24.5 and sums them: its promotional discount is
49/20 = 2.45 = 10% of 24.5 and its final price 19.6, contradicting the
claimed running-total rule. -/
theorem c2_running_total_divergence :
    acceptedDiscounts (stepOutcome exOrder exOptions 5 "t")
      = some [⟨"tier", 49/20, some 10, none⟩, ⟨"promotional", 441/200, none, some "SAVE10"⟩]
    ∧ acceptedFinal (stepOutcome exOrder exOptions 5 "t") = some (3969/200)
    ∧ (Refactored.calculateFinalPrice exOrder (some "SAVE10") 5).total = 49/2
    ∧ (Refactored.calculateFinalPrice exOrder (some "SAVE10") 5).discounts.tier = 49/20
    ∧ (Refactored.calculateFinalPrice exOrder (some "SAVE10") 5).discounts.promotional = 49/20
    ∧ (Refactored.calculateFinalPrice exOrder (some "SAVE10") 5).finalPrice = 98/5
    ∧ (49/20 : ℚ) ≠ 441/200 := by
  have h1 : performComprehensiveValidation exOrder = ⟨true, []⟩ := by decide
  unfold stepOutcome tryStep
  rw [h1]
  norm_num +decide [Refactored.calculateFinalPrice, Refactored.calculateSubtotal,
    Refactored.calculateTax, Refactored.calculateFee, Refactored.calculateTotal,
    Refactored.getCustomerTier, Refactored.applyTierDiscount, Refactored.applyVolumeDiscount,
    Refactored.applyPromoDiscount, Refactored.applySeasonalDiscount, Refactored.firstItemPrice,
    transformAndEnrichOrder, determineCustomerTier, calculateComplexPricing,
    jsOrRate, applyMultiLevelDiscounts, tierStep, volumeStep, promoStep, seasonalStep,
    calculatePromotionalDiscount, shouldCompleteOrder, exOrder, exOptions,
    acceptedDiscounts, acceptedFinal]

/-- Claim C3 (code bug): on `order3` (quantities 6+6 = 12 > 10, prices 4 and
1) the original implementation derives the fee (5.00) and the 5% volume
discount (1.90 off 38) from the total quantity, but the refactored
`calculateFinalPrice` feeds `subtotal / items[0].price = 30/4 = 7.5` to the
fee rule (giving 2.50) and the line-item count 2 to the volume rule (giving
0), contradicting the claimed total-quantity basis. -/
theorem c3_fee_basis_divergence :
    (order3.items.map (fun item => item.quantity)).sum = 12
    ∧ (10 : ℚ) < 12
    ∧ (transformAndEnrichOrder order3 opts0 "t").metadata.isLargeOrder = true
    ∧ calculateComplexPricing (transformAndEnrichOrder order3 opts0 "t") opts0
        = .ok ⟨38, ⟨30, 3, 5, 0⟩⟩
    ∧ acceptedDiscounts (stepOutcome order3 opts0 5 "t") = some [⟨"volume", 19/10, some 5, none⟩]
    ∧ acceptedFinal (stepOutcome order3 opts0 5 "t") = some (361/10)
    ∧ (Refactored.calculateFinalPrice order3 none 5).fee = 5/2
    ∧ (Refactored.calculateFinalPrice order3 none 5).discounts.volume = 0 := by
  have h1 : performComprehensiveValidation order3 = ⟨true, []⟩ := by decide
  unfold stepOutcome tryStep
  rw [h1]
  norm_num +decide [Refactored.calculateFinalPrice, Refactored.calculateSubtotal,
    Refactored.calculateTax, Refactored.calculateFee, Refactored.calculateTotal,
    Refactored.getCustomerTier, Refactored.applyTierDiscount, Refactored.applyVolumeDiscount,
    Refactored.applyPromoDiscount, Refactored.applySeasonalDiscount, Refactored.firstItemPrice,
    transformAndEnrichOrder, determineCustomerTier, calculateComplexPricing,
    jsOrRate, applyMultiLevelDiscounts, tierStep, volumeStep, promoStep, seasonalStep,
    calculatePromotionalDiscount, shouldCompleteOrder, order3, opts0,
    acceptedDiscounts, acceptedFinal]

/-- Claim C4 (code bug): on `order4`, whose two items are invalid for
independent reasons, the original `performComprehensiveValidation` returns
two distinct indexed item-level errors, but the refactored `validateOrder`
short-circuits on the first invalid item and returns the single unindexed
error `Invalid item data`, contradicting the claimed completeness of the
error list. -/
theorem c4_shortcircuit_divergence :
    performComprehensiveValidation order4
      = ⟨false, ["Item 0 has invalid price", "Item 1 has invalid quantity"]⟩
    ∧ Refactored.validateOrder order4 = ⟨false, some "Invalid item data"⟩ := by
  constructor
  · decide
  · decide

/-- Claim C5: every order of a batch yields exactly one outcome — the
response's `total` is the batch size and each order adds exactly one entry
to `processedOrders ∪ failedOrders`, so a fault never aborts the remaining
orders — and a fault thrown inside the per-order body (`tryStep` returning
`Except.error`) is converted by the catch into the `rejectedError` outcome,
recorded as a failure with reason `"error"` carrying the fault message. -/
theorem c5_fault_containment (st : ProcessorState) (orders : List Order) (options : Options)
    (month : ℕ) (now : String) :
    (processOrders st orders options month now).2.total = orders.length
    ∧ (processOrders st orders options month now).1.processedOrders.length
        + (processOrders st orders options month now).1.failedOrders.length
      = st.processedOrders.length + st.failedOrders.length + orders.length
    ∧ ∀ (o : Order) (i : ℕ) (msg : String),
        tryStep o options month now = .error msg →
          stepOutcome o options month now = .rejectedError msg
          ∧ applyOutcome st o i now (stepOutcome o options month now)
            = { st with failedOrders := st.failedOrders ++ [⟨o, i, "error", none, some msg, now⟩]
                        statistics := updateStatistics st.statistics none } := by
  refine ⟨?_, ?_, ?_⟩
  · simp only [processOrders, buildResponse]
    rw [runOrders_orders]
  · simp only [processOrders]
    rw [runOrders_outcome_count]
    simp [List.enum, enumFrom_length]
  · intro o i msg h
    have hs : stepOutcome o options month now = .rejectedError msg := by
      unfold stepOutcome
      rw [h]
    refine ⟨hs, ?_⟩
    rw [hs]
    rfl

/-- Witness for C5: on the Example-1 order with a truthy non-array
`adjustments` option, pricing throws and the orchestrator converts the fault
into the `rejectedError` outcome with the fault message. -/
theorem c5_fault_containment_witness :
    tryStep exOrder faultOpts 5 "t" = .error "options.adjustments.reduce is not a function"
    ∧ stepOutcome exOrder faultOpts 5 "t"
        = .rejectedError "options.adjustments.reduce is not a function" := by
  have h : tryStep exOrder faultOpts 5 "t"
      = .error "options.adjustments.reduce is not a function" := by
    have h1 : performComprehensiveValidation exOrder = ⟨true, []⟩ := by decide
    unfold tryStep
    rw [h1]
    norm_num +decide [transformAndEnrichOrder, determineCustomerTier, calculateComplexPricing,
      jsOrRate, exOrder, faultOpts]
  exact ⟨h, ((c5_fault_containment initialState [] faultOpts 5 "t").2.2 exOrder 0 _ h).1⟩

/-- Claim C6 counterexample: a customer whose `totalSpent` is exactly 1000
is classified `gold`, not `premium`, by the original
`determineCustomerTier` (its thresholds are strict), refuting the claim
that `totalSpent = 1000` is premium for every tier function of the
program. -/
theorem c6_boundary_counterexample :
    determineCustomerTier (some ⟨"c", "a@b.co", some ⟨1000⟩, false⟩) = "gold"
    ∧ determineCustomerTier (some ⟨"c", "a@b.co", some ⟨1000⟩, false⟩) ≠ "premium" := by
  decide

/-- Claim C6 (amended): the original `determineCustomerTier` uses strict
thresholds — premium exactly when `totalSpent > 1000`, gold exactly when
`500 < totalSpent ≤ 1000` — while the refactored `getCustomerTier` uses the
claimed inclusive thresholds — premium exactly when `totalSpent ≥ 1000`,
gold exactly when `500 ≤ totalSpent < 1000`; both default `totalSpent` to 0
when the purchase history is absent. -/
theorem c6_tier_thresholds (c : Customer) :
    (determineCustomerTier (some c) = "premium" ↔
      1000 < ((c.purchaseHistory.map (fun h => h.totalSpent)).getD 0)) ∧
    (determineCustomerTier (some c) = "gold" ↔
      (500 < ((c.purchaseHistory.map (fun h => h.totalSpent)).getD 0) ∧
       ((c.purchaseHistory.map (fun h => h.totalSpent)).getD 0) ≤ 1000)) ∧
    (Refactored.getCustomerTier (some c) = "premium" ↔
      1000 ≤ ((c.purchaseHistory.map (fun h => h.totalSpent)).getD 0)) ∧
    (Refactored.getCustomerTier (some c) = "gold" ↔
      (500 ≤ ((c.purchaseHistory.map (fun h => h.totalSpent)).getD 0) ∧
       ((c.purchaseHistory.map (fun h => h.totalSpent)).getD 0) < 1000)) := by
  rcases c with ⟨id, email, ph, iv⟩
  rcases ph with _ | ⟨ts⟩
  · simp [determineCustomerTier, Refactored.getCustomerTier]
    norm_num
    exact ⟨by decide, by decide⟩
  · simp only [determineCustomerTier, Refactored.getCustomerTier, Option.map_some,
      Option.getD_some, Option.bind_some]
    refine ⟨?_, ?_, ?_, ?_⟩ <;> split_ifs <;> simp_all

/-- Exchanging the tier and volume blocks never changes the final price:
both multiply the running total by a constant factor, and the later blocks
depend only on the incoming price. -/
lemma discountSwap_price_eq (order : PricedOrder) (options : Options) (month : ℕ) :
    (applyMultiLevelDiscountsSwapped order options month).discountedPrice
      = (applyMultiLevelDiscounts order options month).discountedPrice := by
  simp only [applyMultiLevelDiscounts, applyMultiLevelDiscountsSwapped]
  have h : (tierStep order (volumeStep order (order.finalPrice, []))).1
      = (volumeStep order (tierStep order (order.finalPrice, []))).1 := by
    simp only [tierStep_fst, volumeStep_fst]
    split_ifs <;> ring
  rw [seasonalStep_fst _ _ _ (promoStep_fst _ _ _ h)]

/-- Claim C7 counterexample (the claim's negation): there is no priced
order, options and month for which both the tier and the volume discount
fire on a positive price and the two application orders give different
final prices. -/
theorem c7_no_price_difference :
    ¬ ∃ (order : PricedOrder) (options : Options) (month : ℕ),
      order.metadata.customerTier = "premium" ∧ order.metadata.isLargeOrder = true
      ∧ 0 < order.finalPrice
      ∧ (applyMultiLevelDiscountsSwapped order options month).discountedPrice
          ≠ (applyMultiLevelDiscounts order options month).discountedPrice := by
  rintro ⟨order, options, month, -, -, -, h⟩
  exact h (discountSwap_price_eq order options month)

/-- Claim C7 (amended): when both the tier and the volume discount fire with
nonzero amounts, the two application orders still give the same final price;
the order of application is visible only in the recorded discount entries,
whose amounts are computed on different bases (10% of the full price versus
10% of the price already reduced by 5%) and genuinely differ. -/
theorem c7_price_insensitive_amounts_differ (order : PricedOrder) (options : Options)
    (month : ℕ) (h1 : order.metadata.customerTier = "premium")
    (h2 : order.metadata.isLargeOrder = true) (h3 : 0 < order.finalPrice) :
    (applyMultiLevelDiscountsSwapped order options month).discountedPrice
      = (applyMultiLevelDiscounts order options month).discountedPrice
    ∧ (applyMultiLevelDiscounts order options month).discounts.head?
        = some ⟨"tier", order.finalPrice * (1/10), some 10, none⟩
    ∧ ((applyMultiLevelDiscountsSwapped order options month).discounts.drop 1).head?
        = some ⟨"tier", (order.finalPrice - order.finalPrice * (1/20)) * (1/10), some 10, none⟩
    ∧ order.finalPrice * (1/10) ≠ (order.finalPrice - order.finalPrice * (1/20)) * (1/10) := by
  refine ⟨discountSwap_price_eq order options month, ?_, ?_, ?_⟩
  · simp only [applyMultiLevelDiscounts]
    obtain ⟨extra, hx⟩ := steps_snd_append options month
      (volumeStep order (tierStep order (order.finalPrice, [])))
    rw [hx]
    simp [tierStep, volumeStep, h1, h2]
  · simp only [applyMultiLevelDiscountsSwapped]
    obtain ⟨extra, hx⟩ := steps_snd_append options month
      (tierStep order (volumeStep order (order.finalPrice, [])))
    rw [hx]
    simp [tierStep, volumeStep, h1, h2]
  · intro h
    nlinarith

/-- Witness for C7 (amended) at a concrete premium large order with price
100. -/
theorem c7_price_insensitive_amounts_differ_witness :
    (premiumLargePriced.metadata.customerTier = "premium"
      ∧ premiumLargePriced.metadata.isLargeOrder = true
      ∧ 0 < premiumLargePriced.finalPrice)
    ∧ ((applyMultiLevelDiscountsSwapped premiumLargePriced opts0 5).discountedPrice
        = (applyMultiLevelDiscounts premiumLargePriced opts0 5).discountedPrice
      ∧ (applyMultiLevelDiscounts premiumLargePriced opts0 5).discounts.head?
          = some ⟨"tier", premiumLargePriced.finalPrice * (1/10), some 10, none⟩
      ∧ ((applyMultiLevelDiscountsSwapped premiumLargePriced opts0 5).discounts.drop 1).head?
          = some ⟨"tier", (premiumLargePriced.finalPrice
              - premiumLargePriced.finalPrice * (1/20)) * (1/10), some 10, none⟩
      ∧ premiumLargePriced.finalPrice * (1/10)
          ≠ (premiumLargePriced.finalPrice - premiumLargePriced.finalPrice * (1/20)) * (1/10)) :=
  ⟨⟨rfl, rfl, by decide⟩,
   c7_price_insensitive_amounts_differ premiumLargePriced opts0 5 rfl rfl (by decide)⟩

/-- Claim C8: both discount stacks clamp with `Math.max(0, ...)`, so the
final price is never negative, for every order, options and month. -/
theorem c8_final_price_nonneg (order : PricedOrder) (options : Options) (month : ℕ)
    (order2 : Order) (promoCode : Option String) (month2 : ℕ) :
    0 ≤ (applyMultiLevelDiscounts order options month).discountedPrice
    ∧ 0 ≤ (Refactored.calculateFinalPrice order2 promoCode month2).finalPrice := by
  constructor
  · simp only [applyMultiLevelDiscounts]
    exact le_max_left 0 _
  · simp only [Refactored.calculateFinalPrice]
    exact le_max_left 0 _

/-- Claim C9: the per-order outcome is a pure function of the order, the
options and the injected month — two runs with identical order, options and
month agree on everything except the wall-clock `processedAt` stamp, in
particular on the outcome's tag, reason, pricing breakdown and
applied-discount list. -/
theorem c9_deterministic_outcome (order : Order) (options : Options) (month : ℕ)
    (n1 n2 : String) :
    eraseTime (stepOutcome order options month n1)
      = eraseTime (stepOutcome order options month n2) := by
  unfold stepOutcome tryStep
  by_cases hv : (performComprehensiveValidation order).isValid
  · simp only [hv, if_true]
    have hp : calculateComplexPricing (transformAndEnrichOrder order options n2) options
        = calculateComplexPricing (transformAndEnrichOrder order options n1) options := rfl
    rw [hp]
    cases hres : calculateComplexPricing (transformAndEnrichOrder order options n1) options with
    | error msg => rfl
    | ok pricing =>
      have hd : applyMultiLevelDiscounts
          { toEnrichedOrder := transformAndEnrichOrder order options n2
            finalPrice := pricing.finalPrice
            pricingBreakdown := pricing.breakdown } options month
        = applyMultiLevelDiscounts
          { toEnrichedOrder := transformAndEnrichOrder order options n1
            finalPrice := pricing.finalPrice
            pricingBreakdown := pricing.breakdown } options month := rfl
      have hs : shouldCompleteOrder
          { toEnrichedOrder := transformAndEnrichOrder order options n2
            finalPrice := pricing.finalPrice
            pricingBreakdown := pricing.breakdown
            discountedPrice := (applyMultiLevelDiscounts
              { toEnrichedOrder := transformAndEnrichOrder order options n1
                finalPrice := pricing.finalPrice
                pricingBreakdown := pricing.breakdown } options month).discountedPrice
            appliedDiscounts := (applyMultiLevelDiscounts
              { toEnrichedOrder := transformAndEnrichOrder order options n1
                finalPrice := pricing.finalPrice
                pricingBreakdown := pricing.breakdown } options month).discounts } options
        = shouldCompleteOrder
          { toEnrichedOrder := transformAndEnrichOrder order options n1
            finalPrice := pricing.finalPrice
            pricingBreakdown := pricing.breakdown
            discountedPrice := (applyMultiLevelDiscounts
              { toEnrichedOrder := transformAndEnrichOrder order options n1
                finalPrice := pricing.finalPrice
                pricingBreakdown := pricing.breakdown } options month).discountedPrice
            appliedDiscounts := (applyMultiLevelDiscounts
              { toEnrichedOrder := transformAndEnrichOrder order options n1
                finalPrice := pricing.finalPrice
                pricingBreakdown := pricing.breakdown } options month).discounts } options := rfl
      simp only [hd, hs]
      by_cases hc : shouldCompleteOrder
          { toEnrichedOrder := transformAndEnrichOrder order options n1
            finalPrice := pricing.finalPrice
            pricingBreakdown := pricing.breakdown
            discountedPrice := (applyMultiLevelDiscounts
              { toEnrichedOrder := transformAndEnrichOrder order options n1
                finalPrice := pricing.finalPrice
                pricingBreakdown := pricing.breakdown } options month).discountedPrice
            appliedDiscounts := (applyMultiLevelDiscounts
              { toEnrichedOrder := transformAndEnrichOrder order options n1
                finalPrice := pricing.finalPrice
                pricingBreakdown := pricing.breakdown } options month).discounts } options
      · simp only [hc, if_true]
        rfl
      · simp only [hc, if_false, Bool.false_eq_true]
  · simp only [hv]
    rfl

/-- Claim C10 counterexample: processing the same single valid order twice
on the same processor instance reports `processed = 2` on the second call
(the instance accumulates `processedOrders` across calls), while a fresh
instance reports `processed = 1` — a prior call does change the counts a
later call reports. -/
theorem c10_state_accumulation_counterexample :
    (processOrders initialState [exOrder] opts0 5 "t").2.processed = 1
    ∧ (processOrders (processOrders initialState [exOrder] opts0 5 "t").1
        [exOrder] opts0 5 "t").2.processed = 2 := by
  have h1 : performComprehensiveValidation exOrder = ⟨true, []⟩ := by decide
  norm_num +decide [processOrders, runOrders, buildResponse, applyOutcome, stepOutcome,
    tryStep, h1, transformAndEnrichOrder, determineCustomerTier, calculateComplexPricing,
    jsOrRate, applyMultiLevelDiscounts, tierStep, volumeStep, promoStep, seasonalStep,
    calculatePromotionalDiscount, shouldCompleteOrder, exOrder, opts0, initialState,
    updateStatistics, stepValue, List.enum]

/-- Claim C10 (amended): within a batch every order's entry in `results` is
the pure per-order outcome of that order alone (no dependence on the
processor state or on other orders), but the processor instance retains
`processedOrders` and `failedOrders` across calls, so the `processed` and
`failed` counts a call reports equal the instance's prior counts plus this
batch's accepted and rejected orders. -/
theorem c10_per_order_purity_state_accumulates (st : ProcessorState) (orders : List Order)
    (options : Options) (month : ℕ) (now : String) :
    (runOrders options month now { st with orders := orders } orders.enum).2
      = orders.enum.map (fun p => stepValue (stepOutcome p.2 options month now))
    ∧ (processOrders st orders options month now).2.processed
      = st.processedOrders.length
        + (orders.filter (fun o => isAcceptedOutcome (stepOutcome o options month now))).length
    ∧ (processOrders st orders options month now).2.failed
      = st.failedOrders.length
        + (orders.filter (fun o => !isAcceptedOutcome (stepOutcome o options month now))).length := by
  refine ⟨runOrders_results _ _ _ _ _, ?_, ?_⟩
  · simp only [processOrders, buildResponse]
    rw [runOrders_processed_len]
    rw [show List.enum orders = List.enumFrom 0 orders from rfl,
      enumFrom_filter_snd_length (fun o => isAcceptedOutcome (stepOutcome o options month now))
        0 orders]
  · simp only [processOrders, buildResponse]
    rw [runOrders_failed_len]
    rw [show List.enum orders = List.enumFrom 0 orders from rfl,
      enumFrom_filter_snd_length (fun o => !isAcceptedOutcome (stepOutcome o options month now))
        0 orders]

end OrderSystem
